import Mathlib

/-!
The simple thermal governor `msm_thermal`.

Shallow embedding of `drivers/thermal/msm_thermal.c`.

* 32-bit `unsigned int` / `uint32_t` values are natural numbers; every
  arithmetic operation the driver performs on them is reduced modulo `2^32`
  explicitly (`add_u32`, `sub_u32`).
* The `int64_t` temperature is an integer.  The driver only compares it, after
  converting the 32-bit unsigned operand to 64-bit signed, which preserves the
  value, so the comparisons are plain integer comparisons.
* Global state (`info`) is passed explicitly; the module parameter
  `temp_threshold`, which can be rewritten from outside at any time, is an
  input of every tick.
* Calls into the kernel (`cpufreq_update_policy`, `schedule_delayed_work_on`)
  are recorded, in program order, in a list of events.
-/

namespace MsmThermal

/-! ## Machine arithmetic -/

/-- Largest value of a 32-bit `unsigned int`. -/
def UINT_MAX : Nat := 4294967295

/-- Sum of two `unsigned int` operands (C: `a + b`), modulo `2^32`. -/
def add_u32 (a b : Nat) : Nat := (a + b) % 4294967296

/-- Difference of two `unsigned int` operands (C: `a - b`), modulo `2^32`. -/
def sub_u32 (a b : Nat) : Nat := (a + 4294967296 - b % 4294967296) % 4294967296

/-! ## Constants (the three enums of the driver) -/

/-- Constant `FREQ_HELL` of `enum thermal_freqs`. -/
def FREQ_HELL : Nat := 787200
/-- Constant `FREQ_VERY_HOT` of `enum thermal_freqs`. -/
def FREQ_VERY_HOT : Nat := 998400
/-- Constant `FREQ_HOT` of `enum thermal_freqs`. -/
def FREQ_HOT : Nat := 1190400
/-- Constant `FREQ_WARM` of `enum thermal_freqs`. -/
def FREQ_WARM : Nat := 1593600

/-- Constant `LEVEL_HELL` of `enum threshold_levels`. -/
def LEVEL_HELL : Nat := 1 <<< 4
/-- Constant `LEVEL_VERY_HOT` of `enum threshold_levels`. -/
def LEVEL_VERY_HOT : Nat := 1 <<< 3
/-- Constant `LEVEL_HOT` of `enum threshold_levels`. -/
def LEVEL_HOT : Nat := 1 <<< 2

/-- Constant `MIN_SAMPLE_TIME_HELL` of `enum thermal_min_sample_time` (ms). -/
def MIN_SAMPLE_TIME_HELL : Nat := 5000
/-- Constant `MIN_SAMPLE_TIME_VERY_HOT` of `enum thermal_min_sample_time` (ms). -/
def MIN_SAMPLE_TIME_VERY_HOT : Nat := 3000
/-- Constant `MIN_SAMPLE_TIME_HOT` of `enum thermal_min_sample_time` (ms). -/
def MIN_SAMPLE_TIME_HOT : Nat := 2000
/-- Constant `MIN_SAMPLE_TIME` of `enum thermal_min_sample_time` (ms). -/
def MIN_SAMPLE_TIME : Nat := 500

/-! ## Data model -/

/-- The driver's `struct thermal_info`. -/
structure thermal_info where
  limited_max_freq : Nat
  safe_diff : Nat
  throttling : Bool
  pending_change : Bool
deriving DecidableEq, Repr

/-- The static initialiser of the global `info`. -/
def info : thermal_info :=
  { limited_max_freq := UINT_MAX
    safe_diff := 5
    throttling := false
    pending_change := false }

/-- Third argument of `schedule_delayed_work_on`, kept symbolic: either
`msecs_to_jiffies(ms)` or a literal number of jiffies. -/
inductive Delay where
  | msecs_to_jiffies (ms : Nat)
  | jiffies (n : Nat)
deriving DecidableEq, Repr

/-- Calls the driver makes into the kernel.  A `cpufreq_update_policy` event
carries, next to the CPU, the two fields of `info` that the policy notifier
reads while that call runs. -/
inductive Event where
  | cpufreq_update_policy (cpu : Nat) (limited_max_freq : Nat) (pending_change : Bool)
  | schedule_delayed_work_on (cpu : Nat) (delay : Delay)
deriving DecidableEq, Repr

/-- What `qpnp_vadc_read(vadc_dev, adc_chan, &result)` leaves behind: its
return code (`0` on success, negative on failure) and the content of
`result.physical` after the call.  `result` is an uninitialised local, so
after a failed read `physical` is whatever the call or the stack left
there. -/
structure vadc_read where
  rc : Int
  physical : Int
deriving DecidableEq, Repr

/-! ## Operations -/

/-- The driver's `limit_cpu_freqs(max_freq)`; `online` is the list that
`for_each_online_cpu` walks. -/
def limit_cpu_freqs (online : List Nat) (info : thermal_info) (max_freq : Nat) :
    thermal_info × List Event :=
  if info.limited_max_freq = max_freq then
    (info, [])
  else
    let info1 := { info with limited_max_freq := max_freq }
    let info2 := { info1 with pending_change := true }
    let evs := online.map fun cpu =>
      Event.cpufreq_update_policy cpu info2.limited_max_freq info2.pending_change
    ({ info2 with pending_change := false }, evs)

/-- The `if / else if` ladder of `check_temp` (source lines 132-142): the
values of the locals `freq` and `sample_time` after it, starting from their
initialisers `0` and `MIN_SAMPLE_TIME`. -/
def tier_ladder (temp_threshold : Nat) (temp : Int) : Nat × Nat :=
  if temp ≥ ((add_u32 temp_threshold LEVEL_HELL : Nat) : Int) then
    (FREQ_HELL, MIN_SAMPLE_TIME_HELL)
  else if temp ≥ ((add_u32 temp_threshold LEVEL_VERY_HOT : Nat) : Int) then
    (FREQ_VERY_HOT, MIN_SAMPLE_TIME_VERY_HOT)
  else if temp ≥ ((add_u32 temp_threshold LEVEL_HOT : Nat) : Int) then
    (FREQ_HOT, MIN_SAMPLE_TIME_HOT)
  else if temp > (temp_threshold : Int) then
    (FREQ_WARM, MIN_SAMPLE_TIME)
  else
    (0, MIN_SAMPLE_TIME)

/-- The `reschedule:` label of `check_temp`:
`schedule_delayed_work_on(0, &check_temp_work, msecs_to_jiffies(sample_time))`. -/
def reschedule (sample_time : Nat) : Event :=
  Event.schedule_delayed_work_on 0 (Delay.msecs_to_jiffies sample_time)

/-- The condition of the release check of `check_temp` (source lines
122-124): `info.throttling` and `temp < (temp_threshold - info.safe_diff)`,
the difference taken in 32-bit unsigned arithmetic and then converted to the
64-bit signed type of `temp`. -/
def release_check (temp_threshold : Nat) (info : thermal_info) (temp : Int) : Prop :=
  info.throttling = true ∧
    temp < ((sub_u32 temp_threshold info.safe_diff : Nat) : Int)

instance release_check_decidable (temp_threshold : Nat) (info : thermal_info)
    (temp : Int) : Decidable (release_check temp_threshold info temp) := by
  unfold release_check
  infer_instance

/-- The driver's `check_temp`: one tick of the governor.  The return code of
`qpnp_vadc_read` is not looked at; `temp` is `result.physical`. -/
def check_temp (online : List Nat) (temp_threshold : Nat) (info : thermal_info)
    (rd : vadc_read) : thermal_info × List Event :=
  let temp : Int := rd.physical
  if release_check temp_threshold info temp then
    let r := limit_cpu_freqs online info UINT_MAX
    ({ r.1 with throttling := false }, r.2 ++ [reschedule MIN_SAMPLE_TIME])
  else
    let fs := tier_ladder temp_threshold temp
    if fs.1 ≠ 0 then
      let r := limit_cpu_freqs online info fs.1
      let info3 := if r.1.throttling = false then { r.1 with throttling := true } else r.1
      (info3, r.2 ++ [reschedule fs.2])
    else
      (info, [reschedule fs.2])

/-- Input of one tick: the online CPUs, the value of `temp_threshold` and the
outcome of the sensor read at that moment. -/
structure tick_input where
  online : List Nat
  temp_threshold : Nat
  rd : vadc_read
deriving DecidableEq, Repr

/-- State of `info` after running `check_temp` once per element of `ticks`. -/
def run (info : thermal_info) : List tick_input → thermal_info
  | [] => info
  | t :: rest => run (check_temp t.online t.temp_threshold info t.rd).1 rest

/-- Events of running `check_temp` once per element of `ticks`, in order. -/
def run_events (info : thermal_info) : List tick_input → List Event
  | [] => []
  | t :: rest =>
    (check_temp t.online t.temp_threshold info t.rd).2 ++
      run_events (check_temp t.online t.temp_threshold info t.rd).1 rest

/-! ## Observations on event lists -/

/-- The `schedule_delayed_work_on` calls of an event list, in order: target
CPU and delay of each. -/
def scheduled : List Event → List (Nat × Delay)
  | [] => []
  | Event.schedule_delayed_work_on cpu d :: es => (cpu, d) :: scheduled es
  | Event.cpufreq_update_policy _ _ _ :: es => scheduled es

/-- The `cpufreq_update_policy` calls of an event list, in order: target CPU
and the `limited_max_freq` published while the call runs. -/
def policy_updates : List Event → List (Nat × Nat)
  | [] => []
  | Event.schedule_delayed_work_on _ _ :: es => policy_updates es
  | Event.cpufreq_update_policy cpu f _ :: es => (cpu, f) :: policy_updates es

/-! ## The policy notifier, the probe and the threshold getter -/

/-- The fields of the kernel's `struct cpufreq_policy` that the driver's
notifier reads or has clamped. -/
structure cpufreq_policy where
  cpu : Nat
  min : Nat
  max : Nat
deriving DecidableEq, Repr

/-- Modelled from the spec: the kernel helper `cpufreq_verify_within_limits`
(declared in `linux/cpufreq.h`, not part of the driver file) is missing.  The
spec says the callback "clamps its own CPU's policy to the currently published
maximum"; the model clamps both bounds of the policy into `[min, max]` in the
order of the kernel helper (raise to `min`, lower to `max`, then keep
`policy.min <= policy.max`). -/
def cpufreq_verify_within_limits (policy : cpufreq_policy) (min max : Nat) :
    cpufreq_policy :=
  let p1 := if policy.min < min then { policy with min := min } else policy
  let p2 := if p1.max < min then { p1 with max := min } else p1
  let p3 := if p2.min > max then { p2 with min := max } else p2
  let p4 := if p3.max > max then { p3 with max := max } else p3
  if p4.min > p4.max then { p4 with min := p4.max } else p4

/-- What one run of the notifier callback leaves behind: its return value, the
policy it was handed and the global `info`. -/
structure callback_result where
  ret : Nat
  policy : cpufreq_policy
  info : thermal_info
deriving DecidableEq, Repr

/-- The driver's `msm_thermal_cpufreq_callback(nfb, event, data)`, with
`policy = data`.  The header constants `CPUFREQ_INCOMPATIBLE` and `NOTIFY_OK`
are parameters; the `pr_info` line is not modelled. -/
def msm_thermal_cpufreq_callback (CPUFREQ_INCOMPATIBLE NOTIFY_OK : Nat)
    (info : thermal_info) (event : Nat) (policy : cpufreq_policy) : callback_result :=
  if event = CPUFREQ_INCOMPATIBLE ∧ info.pending_change = true then
    { ret := NOTIFY_OK
      policy := cpufreq_verify_within_limits policy 0 info.limited_max_freq
      info := info }
  else
    { ret := NOTIFY_OK, policy := policy, info := info }

/-- Calls of `msm_thermal_dev_probe` that matter for starting the loop:
`cpufreq_register_notifier` with the value it returned, and
`schedule_delayed_work_on`. -/
inductive ProbeEvent where
  | cpufreq_register_notifier (ret : Int)
  | schedule_delayed_work_on (cpu : Nat) (delay : Delay)
deriving DecidableEq, Repr

/-- The driver's `msm_thermal_dev_probe`: `of_ret` is what
`of_property_read_u32(np, "qcom,adc-channel", &adc_chan)` returns and
`reg_ret` what `cpufreq_register_notifier` returns if it is called.  The
result is the return value of the probe and its calls in program order.  The
unchecked `qpnp_get_vadc` and `INIT_DELAYED_WORK` are not modelled. -/
def msm_thermal_dev_probe (of_ret reg_ret : Int) : Int × List ProbeEvent :=
  let ret := of_ret
  if ret ≠ 0 then
    (ret, [])
  else
    let ret := reg_ret
    if ret ≠ 0 then
      (ret, [ProbeEvent.cpufreq_register_notifier reg_ret])
    else
      (ret, [ProbeEvent.cpufreq_register_notifier reg_ret,
        ProbeEvent.schedule_delayed_work_on 0 (Delay.jiffies 5)])

/-- The module-level variables of the driver: the parameter `temp_threshold`
and the static `info`. -/
structure module_globals where
  temp_threshold : Nat
  info : thermal_info
deriving DecidableEq, Repr

/-- The driver's `get_threshold`: `return temp_threshold;` converts the
32-bit `unsigned int` to the 16-bit return type `unsigned short`, that is,
reduces it modulo `2^16`.  The result is the returned value and the globals
after the call. -/
def get_threshold (g : module_globals) : Nat × module_globals :=
  (g.temp_threshold % 65536, g)

/-! ## Basic facts about the operations -/

theorem LEVEL_HELL_eq : LEVEL_HELL = 16 := by decide
theorem LEVEL_VERY_HOT_eq : LEVEL_VERY_HOT = 8 := by decide
theorem LEVEL_HOT_eq : LEVEL_HOT = 4 := by decide

theorem limit_cpu_freqs_freq (online : List Nat) (s : thermal_info) (f : Nat) :
    (limit_cpu_freqs online s f).1.limited_max_freq = f := by
  unfold limit_cpu_freqs
  split <;> simp_all

theorem limit_cpu_freqs_throttling (online : List Nat) (s : thermal_info) (f : Nat) :
    (limit_cpu_freqs online s f).1.throttling = s.throttling := by
  unfold limit_cpu_freqs
  split <;> simp_all

theorem limit_cpu_freqs_safe_diff (online : List Nat) (s : thermal_info) (f : Nat) :
    (limit_cpu_freqs online s f).1.safe_diff = s.safe_diff := by
  unfold limit_cpu_freqs
  split <;> simp_all

/-- The ladder only ever yields one of the four caps, or `0` for "no tier". -/
theorem tier_ladder_freq_cases (thr : Nat) (T : Int) :
    (tier_ladder thr T).1 = FREQ_HELL ∨ (tier_ladder thr T).1 = FREQ_VERY_HOT ∨
      (tier_ladder thr T).1 = FREQ_HOT ∨ (tier_ladder thr T).1 = FREQ_WARM ∨
      (tier_ladder thr T).1 = 0 := by
  unfold tier_ladder
  split_ifs <;> simp

/-- Without wrap-around of `threshold + 16` the ladder is the plain one. -/
theorem tier_ladder_no_wrap (thr : Nat) (T : Int) (hthr : thr + 16 ≤ UINT_MAX) :
    tier_ladder thr T =
      if T ≥ (thr : Int) + 16 then (787200, 5000)
      else if T ≥ (thr : Int) + 8 then (998400, 3000)
      else if T ≥ (thr : Int) + 4 then (1190400, 2000)
      else if T > (thr : Int) then (1593600, 500)
      else (0, 500) := by
  unfold UINT_MAX at hthr
  simp only [tier_ladder, add_u32, LEVEL_HELL_eq, LEVEL_VERY_HOT_eq, LEVEL_HOT_eq,
    FREQ_HELL, FREQ_VERY_HOT, FREQ_HOT, FREQ_WARM, MIN_SAMPLE_TIME_HELL,
    MIN_SAMPLE_TIME_VERY_HOT, MIN_SAMPLE_TIME_HOT, MIN_SAMPLE_TIME]
  have h16 : (thr + 16) % 4294967296 = thr + 16 := Nat.mod_eq_of_lt (by omega)
  have h8 : (thr + 8) % 4294967296 = thr + 8 := Nat.mod_eq_of_lt (by omega)
  have h4 : (thr + 4) % 4294967296 = thr + 4 := Nat.mod_eq_of_lt (by omega)
  rw [h16, h8, h4]
  push_cast
  rfl

/-- The tick on the release path. -/
theorem check_temp_of_release (online : List Nat) (thr : Nat) (s : thermal_info)
    (rd : vadc_read) (h : release_check thr s rd.physical) :
    check_temp online thr s rd =
      ({ (limit_cpu_freqs online s UINT_MAX).1 with throttling := false },
        (limit_cpu_freqs online s UINT_MAX).2 ++ [reschedule MIN_SAMPLE_TIME]) := by
  simp [check_temp, h]

/-- The tick when a tier is selected. -/
theorem check_temp_of_tier (online : List Nat) (thr : Nat) (s : thermal_info)
    (rd : vadc_read) (h : ¬ release_check thr s rd.physical)
    (hf : (tier_ladder thr rd.physical).1 ≠ 0) :
    check_temp online thr s rd =
      ({ (limit_cpu_freqs online s (tier_ladder thr rd.physical).1).1 with
          throttling := true },
        (limit_cpu_freqs online s (tier_ladder thr rd.physical).1).2 ++
          [reschedule (tier_ladder thr rd.physical).2]) := by
  simp only [check_temp, h, hf, if_false, if_true, ne_eq, not_false_eq_true]
  cases hb : (limit_cpu_freqs online s (tier_ladder thr rd.physical).1).1.throttling <;>
    simp [hb]
  cases hl : (limit_cpu_freqs online s (tier_ladder thr rd.physical).1).1
  simp_all

/-- The tick when neither the release check fires nor a tier is selected. -/
theorem check_temp_of_none (online : List Nat) (thr : Nat) (s : thermal_info)
    (rd : vadc_read) (h : ¬ release_check thr s rd.physical)
    (hf : (tier_ladder thr rd.physical).1 = 0) :
    check_temp online thr s rd = (s, [reschedule (tier_ladder thr rd.physical).2]) := by
  simp [check_temp, h, hf]

theorem scheduled_append (a b : List Event) :
    scheduled (a ++ b) = scheduled a ++ scheduled b := by
  induction a with
  | nil => rfl
  | cons e es ih => cases e <;> simp [scheduled, ih]

theorem policy_updates_append (a b : List Event) :
    policy_updates (a ++ b) = policy_updates a ++ policy_updates b := by
  induction a with
  | nil => rfl
  | cons e es ih => cases e <;> simp [policy_updates, ih]

theorem scheduled_map_update (online : List Nat) (f : Nat) (p : Bool) :
    scheduled (online.map fun cpu => Event.cpufreq_update_policy cpu f p) = [] := by
  induction online with
  | nil => rfl
  | cons c cs ih => simpa [scheduled] using ih

theorem policy_updates_map_update (online : List Nat) (f : Nat) (p : Bool) :
    policy_updates (online.map fun cpu => Event.cpufreq_update_policy cpu f p) =
      online.map fun cpu => (cpu, f) := by
  induction online with
  | nil => rfl
  | cons c cs ih => simpa [policy_updates] using ih

/-- The limiter schedules nothing. -/
theorem scheduled_limit_cpu_freqs (online : List Nat) (s : thermal_info) (f : Nat) :
    scheduled (limit_cpu_freqs online s f).2 = [] := by
  unfold limit_cpu_freqs
  split
  · rfl
  · exact scheduled_map_update online f true

/-- The broadcast of the limiter: nothing when the cap is already in effect,
else one policy update per online CPU, each carrying the new cap. -/
theorem policy_updates_limit_cpu_freqs (online : List Nat) (s : thermal_info) (f : Nat) :
    policy_updates (limit_cpu_freqs online s f).2 =
      if s.limited_max_freq = f then [] else online.map fun cpu => (cpu, f) := by
  unfold limit_cpu_freqs
  split
  · rfl
  · exact policy_updates_map_update online f true

/-- No tick writes `safe_diff`. -/
theorem check_temp_safe_diff (online : List Nat) (thr : Nat) (s : thermal_info)
    (rd : vadc_read) : (check_temp online thr s rd).1.safe_diff = s.safe_diff := by
  by_cases h : release_check thr s rd.physical
  · rw [check_temp_of_release online thr s rd h]
    exact limit_cpu_freqs_safe_diff online s UINT_MAX
  · by_cases hf : (tier_ladder thr rd.physical).1 = 0
    · rw [check_temp_of_none online thr s rd h hf]
    · rw [check_temp_of_tier online thr s rd h hf]
      exact limit_cpu_freqs_safe_diff online s _

/-- A cap of the ladder is never the unbounded sentinel. -/
theorem tier_ladder_ne_UINT_MAX (thr : Nat) (T : Int) :
    (tier_ladder thr T).1 ≠ UINT_MAX := by
  rcases tier_ladder_freq_cases thr T with h | h | h | h | h <;> rw [h] <;> decide

/-- With `safe_diff <= threshold <= UINT_MAX` the release bound does not wrap. -/
theorem sub_u32_no_wrap (thr sd : Nat) (h1 : sd ≤ thr) (h2 : thr ≤ UINT_MAX) :
    sub_u32 thr sd = thr - sd := by
  unfold UINT_MAX at h2
  unfold sub_u32
  have hsd : sd % 4294967296 = sd := Nat.mod_eq_of_lt (by omega)
  rw [hsd]
  omega

/-- The release bound computed by the driver is never below the ordinary
integer difference `threshold - safe_diff`: a reading below the latter is
below the former as well. -/
theorem sub_u32_ge_int (thr sd : Nat) (h1 : sd ≤ UINT_MAX) (h2 : thr ≤ UINT_MAX) :
    (thr : Int) - (sd : Int) ≤ ((sub_u32 thr sd : Nat) : Int) := by
  unfold UINT_MAX at h1 h2
  unfold sub_u32
  have hsd : sd % 4294967296 = sd := Nat.mod_eq_of_lt (by omega)
  rw [hsd]
  omega

/-! ## Tier selection -/

/-- C1: for every threshold with `threshold + 16 <= 2^32 - 1`, every reading
`T` and every state in which the release check does not fire, one tick
selects hottest first: cap 787200 if `T >= threshold + 16`, else 998400 if
`T >= threshold + 8`, else 1190400 if `T >= threshold + 4`, else 1593600 if
`T > threshold`; in each of the four cases `limited_max_freq` is that cap
after the tick, `throttling` is true, and every policy update the tick
broadcasts carries that cap. -/
theorem check_temp_tier_selection (online : List Nat) (thr : Nat) (s : thermal_info)
    (rd : vadc_read) (hthr : thr + 16 ≤ UINT_MAX)
    (hrel : ¬ release_check thr s rd.physical) (hT : rd.physical > (thr : Int)) :
    (check_temp online thr s rd).1.limited_max_freq =
        (if rd.physical ≥ (thr : Int) + 16 then 787200
         else if rd.physical ≥ (thr : Int) + 8 then 998400
         else if rd.physical ≥ (thr : Int) + 4 then 1190400
         else 1593600) ∧
      (check_temp online thr s rd).1.throttling = true ∧
      ∀ cpu f p, Event.cpufreq_update_policy cpu f p ∈ (check_temp online thr s rd).2 →
        f = (check_temp online thr s rd).1.limited_max_freq := by
  have hl := tier_ladder_no_wrap thr rd.physical hthr
  have hf : (tier_ladder thr rd.physical).1 ≠ 0 := by
    rw [hl]; split_ifs <;> simp
  rw [check_temp_of_tier online thr s rd hrel hf]
  refine ⟨?_, rfl, ?_⟩
  · simp only [limit_cpu_freqs_freq]
    rw [hl]; split_ifs <;> rfl
  · intro cpu f p hmem
    simp only [limit_cpu_freqs_freq]
    simp only [List.mem_append, List.mem_singleton, reschedule] at hmem
    rcases hmem with hmem | hmem
    · unfold limit_cpu_freqs at hmem
      split at hmem
      · simp at hmem
      · simp only [List.mem_map] at hmem
        obtain ⟨c, -, hc⟩ := hmem
        injection hc with h1 h2 h3
        exact h2.symm
    · cases hmem

/-- Witness of `check_temp_tier_selection`: threshold 47, reading 68, from the
initial state, four CPUs online. -/
theorem check_temp_tier_selection_witness :
    (47 + 16 ≤ UINT_MAX ∧ ¬ release_check 47 info 68 ∧ (68 : Int) > ((47 : Nat) : Int)) ∧
      (check_temp [0, 1, 2, 3] 47 info ⟨0, 68⟩).1.limited_max_freq = 787200 ∧
      (check_temp [0, 1, 2, 3] 47 info ⟨0, 68⟩).1.throttling = true :=
  ⟨⟨by decide, by decide, by decide⟩,
    (check_temp_tier_selection [0, 1, 2, 3] 47 info ⟨0, 68⟩
      (by decide) (by decide) (by decide)).1,
    (check_temp_tier_selection [0, 1, 2, 3] 47 info ⟨0, 68⟩
      (by decide) (by decide) (by decide)).2.1⟩

/-! ## Hysteresis -/

/-- One tick keeps an engaged clamp engaged when the reading is not below
`threshold - safe_diff` and that bound does not wrap. -/
theorem check_temp_keeps_clamp (online : List Nat) (thr : Nat) (s : thermal_info)
    (rd : vadc_read) (hsd : s.safe_diff ≤ thr) (hmax : thr ≤ UINT_MAX)
    (hthrot : s.throttling = true) (hfreq : s.limited_max_freq ≠ UINT_MAX)
    (hT : rd.physical ≥ (thr : Int) - (s.safe_diff : Int)) :
    (check_temp online thr s rd).1.throttling = true ∧
      (check_temp online thr s rd).1.limited_max_freq ≠ UINT_MAX := by
  have hrel : ¬ release_check thr s rd.physical := by
    unfold release_check
    rw [sub_u32_no_wrap thr s.safe_diff hsd hmax]
    omega
  by_cases hf : (tier_ladder thr rd.physical).1 = 0
  · rw [check_temp_of_none online thr s rd hrel hf]
    exact ⟨hthrot, hfreq⟩
  · rw [check_temp_of_tier online thr s rd hrel hf]
    refine ⟨rfl, ?_⟩
    simp only [limit_cpu_freqs_freq]
    exact tier_ladder_ne_UINT_MAX thr rd.physical

/-- C2, as stated, fails in two ways.  (a) Threshold 3 is below `safe_diff`:
`3 - 5` wraps to `2^32 - 2`, so the reading 4, which is `>= 3 - 5` in ordinary
integers, releases an engaged clamp.  (b) From the state with
`throttling = true` but `limited_max_freq = UINT_MAX`, the reading 47 at
threshold 47 selects no tier and `limited_max_freq` stays `UINT_MAX`. -/
theorem hysteresis_counterexample :
    ((4 : Int) ≥ (3 : Int) - 5 ∧
      (run ⟨1593600, 5, true, false⟩ [⟨[0, 1, 2, 3], 3, ⟨0, 4⟩⟩]).throttling = false ∧
      (run ⟨1593600, 5, true, false⟩ [⟨[0, 1, 2, 3], 3, ⟨0, 4⟩⟩]).limited_max_freq
        = UINT_MAX) ∧
    ((47 : Int) ≥ (47 : Int) - 5 ∧
      (run ⟨UINT_MAX, 5, true, false⟩ [⟨[0, 1, 2, 3], 47, ⟨0, 47⟩⟩]).throttling = true ∧
      (run ⟨UINT_MAX, 5, true, false⟩ [⟨[0, 1, 2, 3], 47, ⟨0, 47⟩⟩]).limited_max_freq
        = UINT_MAX) := by
  decide

/-- C2 (amended): from any state with `throttling = true`, `safe_diff = 5` and
a clamp in effect (`limited_max_freq` not `UINT_MAX`), for every sequence of
ticks whose thresholds lie in `5 .. UINT_MAX` and whose readings are each
`>= threshold - 5`, the clamp is never released: after every tick (every
prefix of the sequence) `throttling` is still true and `limited_max_freq` is
not `UINT_MAX`. -/
theorem hysteresis_no_release (s : thermal_info) (ticks : List tick_input)
    (hsd : s.safe_diff = 5) (hthrot : s.throttling = true)
    (hfreq : s.limited_max_freq ≠ UINT_MAX)
    (hticks : ∀ t ∈ ticks, 5 ≤ t.temp_threshold ∧ t.temp_threshold ≤ UINT_MAX ∧
      t.rd.physical ≥ (t.temp_threshold : Int) - 5) (k : Nat) :
    (run s (ticks.take k)).throttling = true ∧
      (run s (ticks.take k)).limited_max_freq ≠ UINT_MAX := by
  induction ticks generalizing s k with
  | nil => simpa [run] using ⟨hthrot, hfreq⟩
  | cons t rest ih =>
    cases k with
    | zero => simpa [run] using ⟨hthrot, hfreq⟩
    | succ k =>
      obtain ⟨h5, hmax, hT⟩ := hticks t (List.mem_cons_self t rest)
      have hstep := check_temp_keeps_clamp t.online t.temp_threshold s t.rd
        (by omega) hmax hthrot hfreq (by rw [hsd]; exact_mod_cast hT)
      simp only [List.take_succ_cons, run]
      exact ih _ (by rw [check_temp_safe_diff]; exact hsd) hstep.1 hstep.2
        (fun u hu => hticks u (List.mem_cons_of_mem t hu)) k

/-- Witness of `hysteresis_no_release`: threshold 47, readings 48, 46, 48, 46
after the clamp was engaged at 1593600; the state after all four ticks. -/
theorem hysteresis_no_release_witness :
    (run ⟨1593600, 5, true, false⟩
        [⟨[0, 1, 2, 3], 47, ⟨0, 48⟩⟩, ⟨[0, 1, 2, 3], 47, ⟨0, 46⟩⟩,
          ⟨[0, 1, 2, 3], 47, ⟨0, 48⟩⟩, ⟨[0, 1, 2, 3], 47, ⟨0, 46⟩⟩]).throttling = true ∧
      (run ⟨1593600, 5, true, false⟩
        [⟨[0, 1, 2, 3], 47, ⟨0, 48⟩⟩, ⟨[0, 1, 2, 3], 47, ⟨0, 46⟩⟩,
          ⟨[0, 1, 2, 3], 47, ⟨0, 48⟩⟩, ⟨[0, 1, 2, 3], 47, ⟨0, 46⟩⟩]).limited_max_freq
        ≠ UINT_MAX :=
  hysteresis_no_release ⟨1593600, 5, true, false⟩
    [⟨[0, 1, 2, 3], 47, ⟨0, 48⟩⟩, ⟨[0, 1, 2, 3], 47, ⟨0, 46⟩⟩,
      ⟨[0, 1, 2, 3], 47, ⟨0, 48⟩⟩, ⟨[0, 1, 2, 3], 47, ⟨0, 46⟩⟩]
    rfl rfl (by decide) (by decide) 4

/-! ## Release -/

/-- C3: for every state with `throttling = true` and every reading on which
the release check fires, after the tick `limited_max_freq = UINT_MAX` and
`throttling = false`; no tier cap is applied (the only policy updates of the
tick are those of `limit_cpu_freqs(UINT_MAX)`: none if the state was already
unbounded, else one per online CPU carrying `UINT_MAX`), and exactly one next
tick is scheduled, on CPU 0 after the default 500 ms, as the last action. -/
theorem check_temp_release_resets (online : List Nat) (thr : Nat) (s : thermal_info)
    (rd : vadc_read) (hthrot : s.throttling = true)
    (hT : rd.physical < ((sub_u32 thr s.safe_diff : Nat) : Int)) :
    (check_temp online thr s rd).1.limited_max_freq = UINT_MAX ∧
      (check_temp online thr s rd).1.throttling = false ∧
      policy_updates (check_temp online thr s rd).2 =
        (if s.limited_max_freq = UINT_MAX then []
         else online.map fun cpu => (cpu, UINT_MAX)) ∧
      scheduled (check_temp online thr s rd).2 = [(0, Delay.msecs_to_jiffies 500)] ∧
      (check_temp online thr s rd).2.getLast? =
        some (Event.schedule_delayed_work_on 0 (Delay.msecs_to_jiffies 500)) := by
  have hrel : release_check thr s rd.physical := ⟨hthrot, hT⟩
  rw [check_temp_of_release online thr s rd hrel]
  refine ⟨limit_cpu_freqs_freq online s UINT_MAX, rfl, ?_, ?_, ?_⟩
  · simp only [policy_updates_append, policy_updates_limit_cpu_freqs]
    simp [reschedule, policy_updates]
  · simp only [scheduled_append, scheduled_limit_cpu_freqs]
    rfl
  · simp [reschedule, MIN_SAMPLE_TIME]

/-- Witness of `check_temp_release_resets`: threshold 3 is below `safe_diff`,
so the release bound wraps and the reading 100 fires the release check
although it also satisfies the hottest tier condition `100 >= 3 + 16`. -/
theorem check_temp_release_resets_witness :
    ((100 : Int) < ((sub_u32 3 5 : Nat) : Int) ∧ (100 : Int) ≥ ((add_u32 3 LEVEL_HELL : Nat) : Int)) ∧
      (check_temp [0, 1] 3 ⟨1593600, 5, true, false⟩ ⟨0, 100⟩).1.limited_max_freq = UINT_MAX ∧
      (check_temp [0, 1] 3 ⟨1593600, 5, true, false⟩ ⟨0, 100⟩).1.throttling = false :=
  ⟨by decide,
    (check_temp_release_resets [0, 1] 3 ⟨1593600, 5, true, false⟩ ⟨0, 100⟩ rfl
      (by decide)).1,
    (check_temp_release_resets [0, 1] 3 ⟨1593600, 5, true, false⟩ ⟨0, 100⟩ rfl
      (by decide)).2.1⟩

/-! ## The Normal band -/

/-- C4, as stated, fails for thresholds whose tier bounds wrap: with
`temp_threshold = 2^32 - 1` the bound `threshold + 16` is 15, so the reading
20, which is `<= threshold`, selects the hottest tier from the initial state
(where the release check cannot fire): the clamp and `throttling` change, a
broadcast is issued and the delay is 5000 ms. -/
theorem normal_band_counterexample :
    (20 : Int) ≤ ((4294967295 : Nat) : Int) ∧
      ¬ release_check 4294967295 info 20 ∧
      check_temp [0, 1] 4294967295 info ⟨0, 20⟩ =
        (⟨787200, 5, true, false⟩,
          [Event.cpufreq_update_policy 0 787200 true,
            Event.cpufreq_update_policy 1 787200 true,
            Event.schedule_delayed_work_on 0 (Delay.msecs_to_jiffies 5000)]) := by
  decide

/-- C4 (amended): for every threshold with `threshold + 16 <= UINT_MAX`, every
state and every reading `T <= threshold` on which the release check does not
fire, the tick selects no tier: the whole state is unchanged and the only
event is the scheduling of the next tick on CPU 0 after the default 500 ms
(so no policy update is broadcast). -/
theorem check_temp_normal_untouched (online : List Nat) (thr : Nat) (s : thermal_info)
    (rd : vadc_read) (hthr : thr + 16 ≤ UINT_MAX) (hT : rd.physical ≤ (thr : Int))
    (hrel : ¬ release_check thr s rd.physical) :
    check_temp online thr s rd =
      (s, [Event.schedule_delayed_work_on 0 (Delay.msecs_to_jiffies 500)]) := by
  have hl := tier_ladder_no_wrap thr rd.physical hthr
  have hl0 : tier_ladder thr rd.physical = (0, 500) := by
    rw [hl]
    split_ifs <;> first | rfl | omega
  rw [check_temp_of_none online thr s rd hrel (by rw [hl0]), hl0]
  rfl

/-- Witness of `check_temp_normal_untouched`: threshold 47, reading 45 while
throttled at 1593600. -/
theorem check_temp_normal_untouched_witness :
    (47 + 16 ≤ UINT_MAX ∧ (45 : Int) ≤ ((47 : Nat) : Int) ∧
      ¬ release_check 47 ⟨1593600, 5, true, false⟩ 45) ∧
    check_temp [0, 1] 47 ⟨1593600, 5, true, false⟩ ⟨0, 45⟩ =
      (⟨1593600, 5, true, false⟩,
        [Event.schedule_delayed_work_on 0 (Delay.msecs_to_jiffies 500)]) :=
  ⟨by decide,
    check_temp_normal_untouched [0, 1] 47 ⟨1593600, 5, true, false⟩ ⟨0, 45⟩
      (by decide) (by decide) (by decide)⟩

/-! ## Monotonicity of the ladder -/

/-- C5: for every threshold and every two readings `T1 < T2` both above the
threshold, the ladder of `check_temp` selects a cap for each (its `freq` is
not 0) and the cap for `T2` is at most the cap for `T1`; hence, whenever the
release check does not fire on either tick, the clamp in effect after a tick
reading `T2` is at most the clamp in effect after a tick reading `T1`. -/
theorem tier_ladder_monotone (thr : Nat) (T1 T2 : Int) (h1 : (thr : Int) < T1)
    (h12 : T1 < T2) :
    (tier_ladder thr T1).1 ≠ 0 ∧ (tier_ladder thr T2).1 ≠ 0 ∧
      (tier_ladder thr T2).1 ≤ (tier_ladder thr T1).1 ∧
      ∀ (online1 online2 : List Nat) (s1 s2 : thermal_info) (rc1 rc2 : Int),
        ¬ release_check thr s1 T1 → ¬ release_check thr s2 T2 →
        (check_temp online2 thr s2 ⟨rc2, T2⟩).1.limited_max_freq ≤
          (check_temp online1 thr s1 ⟨rc1, T1⟩).1.limited_max_freq := by
  have key : (tier_ladder thr T1).1 ≠ 0 ∧ (tier_ladder thr T2).1 ≠ 0 ∧
      (tier_ladder thr T2).1 ≤ (tier_ladder thr T1).1 := by
    simp only [tier_ladder, add_u32, LEVEL_HELL_eq, LEVEL_VERY_HOT_eq, LEVEL_HOT_eq,
      FREQ_HELL, FREQ_VERY_HOT, FREQ_HOT, FREQ_WARM]
    split_ifs <;> omega
  obtain ⟨k1, k2, k3⟩ := key
  refine ⟨k1, k2, k3, ?_⟩
  intro online1 online2 s1 s2 rc1 rc2 hr1 hr2
  rw [check_temp_of_tier online2 thr s2 ⟨rc2, T2⟩ hr2 k2,
    check_temp_of_tier online1 thr s1 ⟨rc1, T1⟩ hr1 k1]
  simpa only [limit_cpu_freqs_freq] using k3

/-- Witness of `tier_ladder_monotone`: threshold 47, readings 50 and 68. -/
theorem tier_ladder_monotone_witness :
    (((47 : Nat) : Int) < 50 ∧ (50 : Int) < 68) ∧
      (tier_ladder 47 50).1 ≠ 0 ∧ (tier_ladder 47 68).1 ≠ 0 ∧
      (tier_ladder 47 68).1 ≤ (tier_ladder 47 50).1 :=
  ⟨by decide, (tier_ladder_monotone 47 50 68 (by decide) (by decide)).1,
    (tier_ladder_monotone 47 50 68 (by decide) (by decide)).2.1,
    (tier_ladder_monotone 47 50 68 (by decide) (by decide)).2.2.1⟩

/-! ## Resample interval -/

/-- The events of a tick on the tier path schedule once, with the delay of the
ladder. -/
theorem scheduled_check_temp (online : List Nat) (thr : Nat) (s : thermal_info)
    (rd : vadc_read) :
    scheduled (check_temp online thr s rd).2 =
      [(0, Delay.msecs_to_jiffies
        (if release_check thr s rd.physical then MIN_SAMPLE_TIME
         else (tier_ladder thr rd.physical).2))] := by
  by_cases h : release_check thr s rd.physical
  · rw [check_temp_of_release online thr s rd h]
    simp only [scheduled_append, scheduled_limit_cpu_freqs, h, if_true]
    rfl
  · by_cases hf : (tier_ladder thr rd.physical).1 = 0
    · rw [check_temp_of_none online thr s rd h hf]
      simp only [h, if_false]
      rfl
    · rw [check_temp_of_tier online thr s rd h hf]
      simp only [scheduled_append, scheduled_limit_cpu_freqs, h, if_false]
      rfl

/-- The delay of the ladder as a function of the cap it selects. -/
theorem tier_ladder_delay (thr : Nat) (T : Int) :
    (tier_ladder thr T).2 =
      if (tier_ladder thr T).1 = 787200 then 5000
      else if (tier_ladder thr T).1 = 998400 then 3000
      else if (tier_ladder thr T).1 = 1190400 then 2000
      else 500 := by
  unfold tier_ladder
  split_ifs <;> simp_all [FREQ_HELL, FREQ_VERY_HOT, FREQ_HOT, FREQ_WARM,
    MIN_SAMPLE_TIME_HELL, MIN_SAMPLE_TIME_VERY_HOT, MIN_SAMPLE_TIME_HOT, MIN_SAMPLE_TIME]

/-- C6: for every state, threshold and reading, a tick schedules exactly one
next tick, on CPU 0, and its delay is 500 ms when the release check fires and
otherwise 5000 ms when the cap the ladder selects (and the tick applies) is
787200, 3000 ms when it is 998400, 2000 ms when it is 1190400, and 500 ms in
every other case (Warm cap or no tier); a selected cap is the clamp in effect
after the tick.  At threshold 47, from any state (with `safe_diff = 5`), the
reading 68 gives 5000 ms and the reading 50 gives 500 ms. -/
theorem check_temp_delay (online : List Nat) (thr : Nat) (s : thermal_info)
    (rd : vadc_read) :
    scheduled (check_temp online thr s rd).2 =
        [(0, Delay.msecs_to_jiffies
          (if release_check thr s rd.physical then 500
           else if (tier_ladder thr rd.physical).1 = 787200 then 5000
           else if (tier_ladder thr rd.physical).1 = 998400 then 3000
           else if (tier_ladder thr rd.physical).1 = 1190400 then 2000
           else 500))] ∧
      (¬ release_check thr s rd.physical → (tier_ladder thr rd.physical).1 ≠ 0 →
        (check_temp online thr s rd).1.limited_max_freq = (tier_ladder thr rd.physical).1) ∧
      (s.safe_diff = 5 → ∀ rc : Int,
        scheduled (check_temp online 47 s ⟨rc, 68⟩).2 = [(0, Delay.msecs_to_jiffies 5000)] ∧
        (check_temp online 47 s ⟨rc, 68⟩).1.limited_max_freq = 787200 ∧
        scheduled (check_temp online 47 s ⟨rc, 50⟩).2 = [(0, Delay.msecs_to_jiffies 500)] ∧
        (check_temp online 47 s ⟨rc, 50⟩).1.limited_max_freq = 1593600) := by
  refine ⟨?_, ?_, ?_⟩
  · rw [scheduled_check_temp, tier_ladder_delay]
    rfl
  · intro h hf
    rw [check_temp_of_tier online thr s rd h hf]
    exact limit_cpu_freqs_freq online s _
  · intro hsd rc
    have h68 : ¬ release_check 47 s (68 : Int) := by
      unfold release_check; rw [hsd]
      intro h; exact absurd h.2 (by decide)
    have h50 : ¬ release_check 47 s (50 : Int) := by
      unfold release_check; rw [hsd]
      intro h; exact absurd h.2 (by decide)
    have l68 : tier_ladder 47 68 = (787200, 5000) := by decide
    have l50 : tier_ladder 47 50 = (1593600, 500) := by decide
    refine ⟨?_, ?_, ?_, ?_⟩
    · rw [scheduled_check_temp]; simp only [h68, if_false, l68]
    · rw [check_temp_of_tier online 47 s ⟨rc, 68⟩ h68 (by simp only [l68]; decide)]
      simp only [limit_cpu_freqs_freq, l68]
    · rw [scheduled_check_temp]; simp only [h50, if_false, l50]
    · rw [check_temp_of_tier online 47 s ⟨rc, 50⟩ h50 (by simp only [l50]; decide)]
      simp only [limit_cpu_freqs_freq, l50]

/-- Witness of `check_temp_delay`: threshold 47, readings 68 and 50 from the
state throttled at 1593600. -/
theorem check_temp_delay_witness :
    scheduled (check_temp [0, 1] 47 ⟨1593600, 5, true, false⟩ ⟨0, 68⟩).2 =
        [(0, Delay.msecs_to_jiffies 5000)] ∧
      (check_temp [0, 1] 47 ⟨1593600, 5, true, false⟩ ⟨0, 68⟩).1.limited_max_freq = 787200 ∧
      scheduled (check_temp [0, 1] 47 ⟨1593600, 5, true, false⟩ ⟨0, 50⟩).2 =
        [(0, Delay.msecs_to_jiffies 500)] ∧
      (check_temp [0, 1] 47 ⟨1593600, 5, true, false⟩ ⟨0, 50⟩).1.limited_max_freq = 1593600 :=
  (check_temp_delay [0, 1] 47 ⟨1593600, 5, true, false⟩ ⟨0, 68⟩).2.2 rfl 0

/-! ## The limiter -/

/-- C7: for every state and cap `f`, a second `limit_cpu_freqs(f)` right after
a first one changes no field of `info` and produces no event (whatever CPUs
are online by then), so the policy updates of the two calls together are
exactly those of the first; and any call with `f` equal to the current
`limited_max_freq` changes nothing and triggers no `cpufreq_update_policy`. -/
theorem limit_cpu_freqs_idempotent (online online2 : List Nat) (s : thermal_info)
    (f : Nat) :
    limit_cpu_freqs online2 (limit_cpu_freqs online s f).1 f =
        ((limit_cpu_freqs online s f).1, []) ∧
      policy_updates ((limit_cpu_freqs online s f).2 ++
          (limit_cpu_freqs online2 (limit_cpu_freqs online s f).1 f).2) =
        policy_updates (limit_cpu_freqs online s f).2 ∧
      (s.limited_max_freq = f → limit_cpu_freqs online s f = (s, [])) := by
  have h2 : limit_cpu_freqs online2 (limit_cpu_freqs online s f).1 f =
      ((limit_cpu_freqs online s f).1, []) := by
    have hf := limit_cpu_freqs_freq online s f
    generalize (limit_cpu_freqs online s f).1 = s1 at hf ⊢
    simp [limit_cpu_freqs, hf]
  refine ⟨h2, ?_, ?_⟩
  · rw [h2]; simp
  · intro h
    simp [limit_cpu_freqs, h]

/-- Witness of `limit_cpu_freqs_idempotent`: the cap 787200 requested while it
is already in effect. -/
theorem limit_cpu_freqs_idempotent_witness :
    limit_cpu_freqs [0, 1, 2, 3] ⟨787200, 5, true, false⟩ 787200 =
      (⟨787200, 5, true, false⟩, []) :=
  (limit_cpu_freqs_idempotent [0, 1, 2, 3] [0, 1, 2, 3] ⟨787200, 5, true, false⟩
    787200).2.2 rfl

/-! ## Invariants of the tick -/

/-- One tick establishes "throttling iff clamped" whenever it held before. -/
theorem check_temp_throttling_iff (online : List Nat) (thr : Nat) (s : thermal_info)
    (rd : vadc_read)
    (hinv : s.throttling = true ↔ s.limited_max_freq ≠ UINT_MAX) :
    (check_temp online thr s rd).1.throttling = true ↔
      (check_temp online thr s rd).1.limited_max_freq ≠ UINT_MAX := by
  by_cases h : release_check thr s rd.physical
  · rw [check_temp_of_release online thr s rd h]
    simp [limit_cpu_freqs_freq]
  · by_cases hf : (tier_ladder thr rd.physical).1 = 0
    · rw [check_temp_of_none online thr s rd h hf]
      exact hinv
    · rw [check_temp_of_tier online thr s rd h hf]
      simp only [limit_cpu_freqs_freq, true_iff]
      exact tier_ladder_ne_UINT_MAX thr rd.physical

/-- The invariant carried along a run. -/
theorem run_throttling_iff (s : thermal_info) (ticks : List tick_input)
    (hinv : s.throttling = true ↔ s.limited_max_freq ≠ UINT_MAX) :
    (run s ticks).throttling = true ↔ (run s ticks).limited_max_freq ≠ UINT_MAX := by
  induction ticks generalizing s with
  | nil => exact hinv
  | cons t rest ih =>
    exact ih _ (check_temp_throttling_iff t.online t.temp_threshold s t.rd hinv)

/-- C8: in every state reached from the initial `info` by any sequence of
ticks (arbitrary online CPUs, thresholds and sensor reads), `throttling` is
true if and only if `limited_max_freq` is not `UINT_MAX`. -/
theorem throttling_iff_clamped (ticks : List tick_input) :
    (run info ticks).throttling = true ↔ (run info ticks).limited_max_freq ≠ UINT_MAX :=
  run_throttling_iff info ticks (by decide)

/-- C9: for every state, threshold and sensor read, the events of a tick
contain exactly one `schedule_delayed_work_on`; it is on CPU 0, it is the last
event of the tick, and its delay is 500, 2000, 3000 or 5000 ms. -/
theorem check_temp_reschedules (online : List Nat) (thr : Nat) (s : thermal_info)
    (rd : vadc_read) :
    ∃ d : Nat, (d = 500 ∨ d = 2000 ∨ d = 3000 ∨ d = 5000) ∧
      scheduled (check_temp online thr s rd).2 = [(0, Delay.msecs_to_jiffies d)] ∧
      (check_temp online thr s rd).2.getLast? =
        some (Event.schedule_delayed_work_on 0 (Delay.msecs_to_jiffies d)) := by
  have hd : ∀ T : Int, (tier_ladder thr T).2 = 500 ∨ (tier_ladder thr T).2 = 2000 ∨
      (tier_ladder thr T).2 = 3000 ∨ (tier_ladder thr T).2 = 5000 := by
    intro T
    unfold tier_ladder
    split_ifs <;> simp [MIN_SAMPLE_TIME_HELL, MIN_SAMPLE_TIME_VERY_HOT,
      MIN_SAMPLE_TIME_HOT, MIN_SAMPLE_TIME]
  by_cases h : release_check thr s rd.physical
  · refine ⟨500, Or.inl rfl, ?_, ?_⟩
    · rw [scheduled_check_temp]; simp only [h, if_true]; rfl
    · rw [check_temp_of_release online thr s rd h]
      simp [reschedule, MIN_SAMPLE_TIME]
  · refine ⟨(tier_ladder thr rd.physical).2, hd _, ?_, ?_⟩
    · rw [scheduled_check_temp]; simp only [h, if_false]
    · by_cases hf : (tier_ladder thr rd.physical).1 = 0
      · rw [check_temp_of_none online thr s rd h hf]
        simp [reschedule]
      · rw [check_temp_of_tier online thr s rd h hf]
        simp [reschedule]

/-! ## Failed sensor reads -/

/-- C10, as stated, fails: `check_temp` never looks at the return code of
`qpnp_vadc_read`, so a failed read is acted upon with whatever is in
`result.physical`.  While throttled at 1593600 with threshold 47, a failed read
(`rc = -5`) leaving 0 releases the clamp and broadcasts `UINT_MAX`; one leaving
100 tightens the clamp to 787200, broadcasts it and waits 5000 ms. -/
theorem failed_read_counterexample :
    check_temp [0, 1] 47 ⟨1593600, 5, true, false⟩ ⟨-5, 0⟩ =
        (⟨UINT_MAX, 5, false, false⟩,
          [Event.cpufreq_update_policy 0 UINT_MAX true,
            Event.cpufreq_update_policy 1 UINT_MAX true,
            Event.schedule_delayed_work_on 0 (Delay.msecs_to_jiffies 500)]) ∧
      check_temp [0, 1] 47 ⟨1593600, 5, true, false⟩ ⟨-5, 100⟩ =
        (⟨787200, 5, true, false⟩,
          [Event.cpufreq_update_policy 0 787200 true,
            Event.cpufreq_update_policy 1 787200 true,
            Event.schedule_delayed_work_on 0 (Delay.msecs_to_jiffies 5000)]) := by
  decide

/-- C10 (amended): for every state with `throttling = true`, a tick whose
sensor read fails (`rc` not 0) is processed exactly like a tick with any other
return code and the same content of `result.physical`; it still schedules
exactly one next tick, on CPU 0; and when that content `T` lies in
`threshold - safe_diff <= T <= threshold` (with `safe_diff <= threshold` and
`threshold + 16 <= UINT_MAX`) the whole state is unchanged, no policy update is
broadcast and the next tick is scheduled after the default 500 ms. -/
theorem check_temp_failed_read (online : List Nat) (thr : Nat) (s : thermal_info)
    (rd : vadc_read) (_hrc : rd.rc ≠ 0) (_hthrot : s.throttling = true) :
    (∀ rc : Int, check_temp online thr s ⟨rc, rd.physical⟩ = check_temp online thr s rd) ∧
      (∃ d : Nat, scheduled (check_temp online thr s rd).2 =
        [(0, Delay.msecs_to_jiffies d)]) ∧
      (s.safe_diff ≤ thr → thr + 16 ≤ UINT_MAX →
        (thr : Int) - (s.safe_diff : Int) ≤ rd.physical → rd.physical ≤ (thr : Int) →
        check_temp online thr s rd =
          (s, [Event.schedule_delayed_work_on 0 (Delay.msecs_to_jiffies 500)])) := by
  refine ⟨fun rc => rfl, ⟨_, scheduled_check_temp online thr s rd⟩, ?_⟩
  intro hsd hthr hlo hhi
  have hl := tier_ladder_no_wrap thr rd.physical hthr
  have hl0 : tier_ladder thr rd.physical = (0, 500) := by
    rw [hl]
    split_ifs <;> first | rfl | omega
  have hrel : ¬ release_check thr s rd.physical := by
    unfold release_check
    rw [sub_u32_no_wrap thr s.safe_diff hsd (by unfold UINT_MAX at hthr ⊢; omega)]
    omega
  rw [check_temp_of_none online thr s rd hrel (by rw [hl0]), hl0]
  rfl

/-- Witness of `check_temp_failed_read`: throttled at 1593600, threshold 47, a
failed read (`rc = -5`) that leaves 45 in `result.physical`. -/
theorem check_temp_failed_read_witness :
    ((-5 : Int) ≠ 0 ∧ (5 : Nat) ≤ 47 ∧ 47 + 16 ≤ UINT_MAX ∧
      ((47 : Nat) : Int) - ((5 : Nat) : Int) ≤ 45 ∧ (45 : Int) ≤ ((47 : Nat) : Int)) ∧
    check_temp [0, 1] 47 ⟨1593600, 5, true, false⟩ ⟨-5, 45⟩ =
      (⟨1593600, 5, true, false⟩,
        [Event.schedule_delayed_work_on 0 (Delay.msecs_to_jiffies 500)]) :=
  ⟨by decide,
    (check_temp_failed_read [0, 1] 47 ⟨1593600, 5, true, false⟩ ⟨-5, 45⟩
      (by decide) rfl).2.2 (by decide) (by decide) (by decide) (by decide)⟩

/-! ## One limiter call per tick -/

theorem policy_updates_reschedule (d : Nat) : policy_updates [reschedule d] = [] := rfl

/-- C11: for every state, threshold and sensor read, the events of a tick are
those of at most one `limit_cpu_freqs` call followed by the rescheduling, and
`limited_max_freq` afterwards is the old value or the argument of that call;
so the tick broadcasts nothing or exactly one round of policy updates (one per
online CPU, all with the same new cap).  When the cap the ladder selects is
the `limited_max_freq` already in effect there is no policy update at all, as
on the second of two consecutive ticks that read the same value in the same
tier. -/
theorem check_temp_one_limiter_call (online : List Nat) (thr : Nat) (s : thermal_info)
    (rd : vadc_read) :
    (∃ d : Nat,
      ((check_temp online thr s rd).2 = [reschedule d] ∧
        (check_temp online thr s rd).1.limited_max_freq = s.limited_max_freq) ∨
      ∃ f : Nat, (check_temp online thr s rd).2 =
          (limit_cpu_freqs online s f).2 ++ [reschedule d] ∧
        (check_temp online thr s rd).1.limited_max_freq = f) ∧
    (policy_updates (check_temp online thr s rd).2 = [] ∨
      ∃ f : Nat, f ≠ s.limited_max_freq ∧
        policy_updates (check_temp online thr s rd).2 = online.map fun cpu => (cpu, f)) ∧
    (¬ release_check thr s rd.physical →
      (tier_ladder thr rd.physical).1 = s.limited_max_freq →
      policy_updates (check_temp online thr s rd).2 = []) ∧
    (∀ (online2 : List Nat) (rc2 : Int), ¬ release_check thr s rd.physical →
      (tier_ladder thr rd.physical).1 ≠ 0 →
      ¬ release_check thr (check_temp online thr s rd).1 rd.physical →
      policy_updates (check_temp online2 thr (check_temp online thr s rd).1
        ⟨rc2, rd.physical⟩).2 = []) := by
  have tier_same : ∀ (o : List Nat) (u : thermal_info) (r : vadc_read),
      ¬ release_check thr u r.physical →
      (tier_ladder thr r.physical).1 = u.limited_max_freq →
      policy_updates (check_temp o thr u r).2 = [] := by
    intro o u r h hf
    by_cases h0 : (tier_ladder thr r.physical).1 = 0
    · rw [check_temp_of_none o thr u r h h0]; rfl
    · rw [check_temp_of_tier o thr u r h h0]
      simp only [policy_updates_append, policy_updates_limit_cpu_freqs, hf,
        policy_updates_reschedule, if_true, List.append_nil]
  refine ⟨?_, ?_, tier_same online s rd, ?_⟩
  · by_cases h : release_check thr s rd.physical
    · rw [check_temp_of_release online thr s rd h]
      exact ⟨MIN_SAMPLE_TIME, Or.inr ⟨UINT_MAX, rfl, limit_cpu_freqs_freq online s UINT_MAX⟩⟩
    · by_cases h0 : (tier_ladder thr rd.physical).1 = 0
      · rw [check_temp_of_none online thr s rd h h0]
        exact ⟨_, Or.inl ⟨rfl, rfl⟩⟩
      · rw [check_temp_of_tier online thr s rd h h0]
        exact ⟨_, Or.inr ⟨_, rfl, limit_cpu_freqs_freq online s _⟩⟩
  · by_cases h : release_check thr s rd.physical
    · rw [check_temp_of_release online thr s rd h]
      simp only [policy_updates_append, policy_updates_limit_cpu_freqs,
        policy_updates_reschedule, List.append_nil]
      by_cases hu : s.limited_max_freq = UINT_MAX
      · left; simp [hu]
      · right; exact ⟨UINT_MAX, fun e => hu e.symm, by simp [hu]⟩
    · by_cases h0 : (tier_ladder thr rd.physical).1 = 0
      · rw [check_temp_of_none online thr s rd h h0]
        left; rfl
      · rw [check_temp_of_tier online thr s rd h h0]
        simp only [policy_updates_append, policy_updates_limit_cpu_freqs,
          policy_updates_reschedule, List.append_nil]
        by_cases hu : s.limited_max_freq = (tier_ladder thr rd.physical).1
        · left; simp [hu]
        · right; exact ⟨_, fun e => hu e.symm, by simp [hu]⟩
  · intro online2 rc2 h h0 h2
    apply tier_same online2 _ ⟨rc2, rd.physical⟩ h2
    rw [check_temp_of_tier online thr s rd h h0]
    exact (limit_cpu_freqs_freq online s _).symm

/-- Witness of `check_temp_one_limiter_call`: threshold 47, reading 68 while
already clamped at 787200: no policy update. -/
theorem check_temp_one_limiter_call_witness :
    (¬ release_check 47 ⟨787200, 5, true, false⟩ 68 ∧
      (tier_ladder 47 68).1 = 787200) ∧
    policy_updates (check_temp [0, 1, 2, 3] 47 ⟨787200, 5, true, false⟩ ⟨0, 68⟩).2 = [] :=
  ⟨by decide,
    (check_temp_one_limiter_call [0, 1, 2, 3] 47 ⟨787200, 5, true, false⟩ ⟨0, 68⟩).2.2.1
      (by decide) (by decide)⟩

/-! ## Delay of the Critical tier -/

/-- C12, as stated, fails: the Critical tier (reading 68 at threshold 47) is
rescheduled after 5000 ms, the Warm tier (reading 50) after 500 ms, and 5000
is not less than or equal to 500. -/
theorem critical_delay_counterexample :
    (tier_ladder 47 68).1 = FREQ_HELL ∧
      scheduled (check_temp [0, 1] 47 info ⟨0, 68⟩).2 = [(0, Delay.msecs_to_jiffies 5000)] ∧
      (tier_ladder 47 50).1 = FREQ_WARM ∧
      scheduled (check_temp [0, 1] 47 info ⟨0, 50⟩).2 = [(0, Delay.msecs_to_jiffies 500)] ∧
      ¬ (5000 ≤ 500) := by
  decide

/-- C12 (amended): the delay a tick schedules after selecting the Critical
tier (no release, `T >= threshold + LEVEL_HELL`, cap 787200) is 5000 ms, the
longest of all delays `check_temp` can schedule: every tick, in any state and
with any threshold and reading, schedules a delay of at most 5000 ms. -/
theorem critical_delay_longest (online : List Nat) (thr : Nat) (s : thermal_info)
    (rd : vadc_read) (hrel : ¬ release_check thr s rd.physical)
    (hcrit : rd.physical ≥ ((add_u32 thr LEVEL_HELL : Nat) : Int)) :
    (check_temp online thr s rd).1.limited_max_freq = 787200 ∧
      scheduled (check_temp online thr s rd).2 = [(0, Delay.msecs_to_jiffies 5000)] ∧
      ∀ (online2 : List Nat) (thr2 : Nat) (s2 : thermal_info) (rd2 : vadc_read),
        ∃ d : Nat, d ≤ 5000 ∧
          scheduled (check_temp online2 thr2 s2 rd2).2 = [(0, Delay.msecs_to_jiffies d)] := by
  have hl : tier_ladder thr rd.physical = (FREQ_HELL, MIN_SAMPLE_TIME_HELL) := by
    unfold tier_ladder
    rw [if_pos hcrit]
  refine ⟨?_, ?_, ?_⟩
  · rw [check_temp_of_tier online thr s rd hrel (by rw [hl]; decide)]
    simp only [limit_cpu_freqs_freq, hl]
    rfl
  · rw [scheduled_check_temp, if_neg hrel, hl]
    rfl
  · intro online2 thr2 s2 rd2
    refine ⟨_, ?_, scheduled_check_temp online2 thr2 s2 rd2⟩
    split
    · decide
    · rw [tier_ladder_delay]
      split_ifs <;> decide

/-- Witness of `critical_delay_longest`: threshold 47, reading 68 from the
initial state. -/
theorem critical_delay_longest_witness :
    (¬ release_check 47 info 68 ∧ (68 : Int) ≥ ((add_u32 47 LEVEL_HELL : Nat) : Int)) ∧
      (check_temp [0, 1] 47 info ⟨0, 68⟩).1.limited_max_freq = 787200 ∧
      scheduled (check_temp [0, 1] 47 info ⟨0, 68⟩).2 = [(0, Delay.msecs_to_jiffies 5000)] :=
  ⟨by decide,
    (critical_delay_longest [0, 1] 47 info ⟨0, 68⟩ (by decide) (by decide)).1,
    (critical_delay_longest [0, 1] 47 info ⟨0, 68⟩ (by decide) (by decide)).2.1⟩

/-! ## The pending_change flag -/

/-- The limiter leaves `pending_change` false if it was false. -/
theorem limit_cpu_freqs_pending_change (online : List Nat) (s : thermal_info) (f : Nat)
    (h : s.pending_change = false) :
    (limit_cpu_freqs online s f).1.pending_change = false := by
  unfold limit_cpu_freqs
  split <;> simp_all

/-- A tick leaves `pending_change` false if it was false. -/
theorem check_temp_pending_change (online : List Nat) (thr : Nat) (s : thermal_info)
    (rd : vadc_read) (h : s.pending_change = false) :
    (check_temp online thr s rd).1.pending_change = false := by
  by_cases hr : release_check thr s rd.physical
  · rw [check_temp_of_release online thr s rd hr]
    exact limit_cpu_freqs_pending_change online s UINT_MAX h
  · by_cases hf : (tier_ladder thr rd.physical).1 = 0
    · rw [check_temp_of_none online thr s rd hr hf]
      exact h
    · rw [check_temp_of_tier online thr s rd hr hf]
      exact limit_cpu_freqs_pending_change online s _ h

/-- The flag stays false along a run that starts with it false. -/
theorem run_pending_change (s : thermal_info) (ticks : List tick_input)
    (h : s.pending_change = false) : (run s ticks).pending_change = false := by
  induction ticks generalizing s with
  | nil => exact h
  | cons t rest ih =>
    exact ih _ (check_temp_pending_change t.online t.temp_threshold s t.rd h)

/-- C13: in `limit_cpu_freqs(f)` with `f` different from the current
`limited_max_freq`, the events are exactly one `cpufreq_update_policy` per
online CPU, each running while `limited_max_freq = f` and
`pending_change = true`, and `pending_change` is false (with
`limited_max_freq = f`) when the call returns; and `pending_change` is false
in every state reached from the initial `info` by any sequence of ticks. -/
theorem pending_change_brackets (online : List Nat) (s : thermal_info) (f : Nat)
    (h : s.limited_max_freq ≠ f) :
    (limit_cpu_freqs online s f).2 =
        online.map (fun cpu => Event.cpufreq_update_policy cpu f true) ∧
      (limit_cpu_freqs online s f).1.pending_change = false ∧
      (limit_cpu_freqs online s f).1.limited_max_freq = f ∧
      ∀ ticks : List tick_input, (run info ticks).pending_change = false := by
  refine ⟨?_, ?_, limit_cpu_freqs_freq online s f, fun ticks => run_pending_change info ticks rfl⟩
  · simp [limit_cpu_freqs, h]
  · simp [limit_cpu_freqs, h]

/-- Witness of `pending_change_brackets`: the cap 787200 requested in the
initial state with CPUs 0 and 1 online. -/
theorem pending_change_brackets_witness :
    info.limited_max_freq ≠ 787200 ∧
      (limit_cpu_freqs [0, 1] info 787200).2 =
        [Event.cpufreq_update_policy 0 787200 true,
          Event.cpufreq_update_policy 1 787200 true] ∧
      (limit_cpu_freqs [0, 1] info 787200).1.pending_change = false :=
  ⟨by decide, (pending_change_brackets [0, 1] info 787200 (by decide)).1,
    (pending_change_brackets [0, 1] info 787200 (by decide)).2.1⟩

/-! ## The policy notifier -/

/-- The modelled clamp puts both bounds of the policy below `max` when the
lower limit is 0. -/
theorem cpufreq_verify_within_limits_le (policy : cpufreq_policy) (max : Nat) :
    (cpufreq_verify_within_limits policy 0 max).max ≤ max ∧
      (cpufreq_verify_within_limits policy 0 max).min ≤ max ∧
      (cpufreq_verify_within_limits policy 0 max).cpu = policy.cpu := by
  unfold cpufreq_verify_within_limits
  simp only [Nat.not_lt_zero, if_false]
  split_ifs <;> simp_all

/-- C14: `msm_thermal_cpufreq_callback` always returns `NOTIFY_OK` and never
changes `info`; when `event = CPUFREQ_INCOMPATIBLE` and `pending_change` is
true the policy becomes `cpufreq_verify_within_limits(policy, 0,
limited_max_freq)`, after which `policy.max <= limited_max_freq` and
`policy.min <= limited_max_freq` (same CPU); for every other event, and
whenever `pending_change` is false, the policy is unchanged. -/
theorem msm_thermal_cpufreq_callback_clamps (CPUFREQ_INCOMPATIBLE NOTIFY_OK : Nat)
    (s : thermal_info) (event : Nat) (policy : cpufreq_policy) :
    (msm_thermal_cpufreq_callback CPUFREQ_INCOMPATIBLE NOTIFY_OK s event policy).ret
        = NOTIFY_OK ∧
      (msm_thermal_cpufreq_callback CPUFREQ_INCOMPATIBLE NOTIFY_OK s event policy).info = s ∧
      (event = CPUFREQ_INCOMPATIBLE → s.pending_change = true →
        (msm_thermal_cpufreq_callback CPUFREQ_INCOMPATIBLE NOTIFY_OK s event policy).policy =
            cpufreq_verify_within_limits policy 0 s.limited_max_freq ∧
          (msm_thermal_cpufreq_callback CPUFREQ_INCOMPATIBLE NOTIFY_OK s event policy).policy.max
            ≤ s.limited_max_freq ∧
          (msm_thermal_cpufreq_callback CPUFREQ_INCOMPATIBLE NOTIFY_OK s event policy).policy.min
            ≤ s.limited_max_freq ∧
          (msm_thermal_cpufreq_callback CPUFREQ_INCOMPATIBLE NOTIFY_OK s event policy).policy.cpu
            = policy.cpu) ∧
      (event ≠ CPUFREQ_INCOMPATIBLE ∨ s.pending_change = false →
        (msm_thermal_cpufreq_callback CPUFREQ_INCOMPATIBLE NOTIFY_OK s event policy).policy
          = policy) := by
  refine ⟨?_, ?_, ?_, ?_⟩
  · unfold msm_thermal_cpufreq_callback; split <;> rfl
  · unfold msm_thermal_cpufreq_callback; split <;> rfl
  · intro he hp
    have hc : (msm_thermal_cpufreq_callback CPUFREQ_INCOMPATIBLE NOTIFY_OK s event policy).policy
        = cpufreq_verify_within_limits policy 0 s.limited_max_freq := by
      simp [msm_thermal_cpufreq_callback, he, hp]
    rw [hc]
    exact ⟨rfl, cpufreq_verify_within_limits_le policy s.limited_max_freq⟩
  · intro h
    unfold msm_thermal_cpufreq_callback
    split
    · rename_i hc
      rcases h with h | h
      · exact absurd hc.1 h
      · rw [h] at hc; exact absurd hc.2 (by decide)
    · rfl

/-- Witness of `msm_thermal_cpufreq_callback_clamps`: during a broadcast of the
cap 787200 the policy `[900000, 2265600]` of CPU 0 becomes `[787200, 787200]`
(`CPUFREQ_INCOMPATIBLE` and `NOTIFY_OK` both 1, as in the kernel headers). -/
theorem msm_thermal_cpufreq_callback_clamps_witness :
    (msm_thermal_cpufreq_callback 1 1 ⟨787200, 5, true, true⟩ 1 ⟨0, 900000, 2265600⟩).policy
      = ⟨0, 787200, 787200⟩ :=
  ((msm_thermal_cpufreq_callback_clamps 1 1 ⟨787200, 5, true, true⟩ 1
    ⟨0, 900000, 2265600⟩).2.2.1 rfl rfl).1

/-! ## The probe -/

/-- C15: if `of_property_read_u32` fails the probe returns its error and makes
no further call; if `cpufreq_register_notifier` fails the probe returns that
error and schedules nothing; if both succeed the probe returns 0 and its calls
are the successful registration followed by exactly one
`schedule_delayed_work_on(0, &check_temp_work, 5)`. -/
theorem msm_thermal_dev_probe_explicit (of_ret reg_ret : Int) :
    (of_ret ≠ 0 → msm_thermal_dev_probe of_ret reg_ret = (of_ret, [])) ∧
      (of_ret = 0 → reg_ret ≠ 0 →
        msm_thermal_dev_probe of_ret reg_ret =
          (reg_ret, [ProbeEvent.cpufreq_register_notifier reg_ret])) ∧
      (of_ret = 0 → reg_ret = 0 →
        msm_thermal_dev_probe of_ret reg_ret =
          (0, [ProbeEvent.cpufreq_register_notifier 0,
            ProbeEvent.schedule_delayed_work_on 0 (Delay.jiffies 5)])) := by
  refine ⟨?_, ?_, ?_⟩
  · intro h
    simp [msm_thermal_dev_probe, h]
  · intro h0 h
    simp [msm_thermal_dev_probe, h0, h]
  · intro h0 h
    simp [msm_thermal_dev_probe, h0, h]

/-- Witness of `msm_thermal_dev_probe_explicit`: a failed channel lookup
(`-22`), a failed registration (`-16`) and a successful probe. -/
theorem msm_thermal_dev_probe_explicit_witness :
    msm_thermal_dev_probe (-22) 0 = (-22, []) ∧
      msm_thermal_dev_probe 0 (-16) =
        (-16, [ProbeEvent.cpufreq_register_notifier (-16)]) ∧
      msm_thermal_dev_probe 0 0 =
        (0, [ProbeEvent.cpufreq_register_notifier 0,
          ProbeEvent.schedule_delayed_work_on 0 (Delay.jiffies 5)]) :=
  ⟨(msm_thermal_dev_probe_explicit (-22) 0).1 (by decide),
    (msm_thermal_dev_probe_explicit 0 (-16)).2.1 rfl (by decide),
    (msm_thermal_dev_probe_explicit 0 0).2.2 rfl rfl⟩

/-! ## Wrap-around of the release bound -/

/-- With a threshold below `safe_diff = 5` a throttled tick releases on every
reading below `2^32 + threshold - 5`. -/
theorem check_temp_wrap_release (online : List Nat) (thr : Nat) (s : thermal_info)
    (rd : vadc_read) (hthr : thr < 5) (hsd : s.safe_diff = 5)
    (hthrot : s.throttling = true)
    (hT : rd.physical < 4294967296 + (thr : Int) - 5) :
    (check_temp online thr s rd).1.limited_max_freq = UINT_MAX ∧
      (check_temp online thr s rd).1.throttling = false := by
  have hrel : release_check thr s rd.physical := by
    refine ⟨hthrot, ?_⟩
    rw [hsd]
    unfold sub_u32
    omega
  rw [check_temp_of_release online thr s rd hrel]
  exact ⟨limit_cpu_freqs_freq online s UINT_MAX, rfl⟩

/-- An unthrottled tick whose reading is above the threshold engages a clamp. -/
theorem check_temp_engages (online : List Nat) (thr : Nat) (s : thermal_info)
    (rd : vadc_read) (hthrot : s.throttling = false)
    (hT : (thr : Int) < rd.physical) :
    (check_temp online thr s rd).1.limited_max_freq ≠ UINT_MAX ∧
      (check_temp online thr s rd).1.throttling = true := by
  have hrel : ¬ release_check thr s rd.physical := by
    intro h
    have h1 := h.1
    rw [hthrot] at h1
    exact absurd h1 (by decide)
  have hf : (tier_ladder thr rd.physical).1 ≠ 0 := by
    simp only [tier_ladder, add_u32, LEVEL_HELL_eq, LEVEL_VERY_HOT_eq, LEVEL_HOT_eq,
      FREQ_HELL, FREQ_VERY_HOT, FREQ_HOT, FREQ_WARM]
    split_ifs <;> omega
  rw [check_temp_of_tier online thr s rd hrel hf]
  refine ⟨?_, rfl⟩
  simp only [limit_cpu_freqs_freq]
  exact tier_ladder_ne_UINT_MAX thr rd.physical

/-- Alternation under a wrapped release bound, from either phase. -/
theorem run_wrap_alternates (ticks : List tick_input)
    (hticks : ∀ t ∈ ticks, t.temp_threshold < 5 ∧
      (t.temp_threshold : Int) < t.rd.physical ∧
      t.rd.physical < 4294967296 + (t.temp_threshold : Int) - 5)
    (s : thermal_info) (hsd : s.safe_diff = 5) :
    (s.throttling = false →
      ((run s ticks).throttling = true ↔ ticks.length % 2 = 1)) ∧
    (s.throttling = true →
      ((run s ticks).throttling = true ↔ ticks.length % 2 = 0)) := by
  induction ticks generalizing s with
  | nil => simp [run]
  | cons t rest ih =>
    obtain ⟨h5, hlo, hhi⟩ := hticks t (List.mem_cons_self t rest)
    have ih2 := ih (fun u hu => hticks u (List.mem_cons_of_mem t hu))
      (check_temp t.online t.temp_threshold s t.rd).1
      (by rw [check_temp_safe_diff]; exact hsd)
    simp only [run, List.length_cons]
    constructor
    · intro hs
      have h1 := (check_temp_engages t.online t.temp_threshold s t.rd hs hlo).2
      rw [ih2.2 h1]
      omega
    · intro hs
      have h1 := (check_temp_wrap_release t.online t.temp_threshold s t.rd h5 hsd hs hhi).2
      rw [ih2.1 h1]
      omega

/-- C16: for every threshold below `safe_diff = 5` the release bound
`threshold - safe_diff` is `2^32 + threshold - 5`, and a tick taken with
`throttling = true` on any reading below it releases the clamp
(`limited_max_freq = UINT_MAX`, `throttling = false`); so with a constant
reading above such a threshold (and below the wrapped bound) the governor,
started released, is clamped after every odd number of ticks and released
after every even number. -/
theorem release_bound_wraps (online : List Nat) (thr : Nat) (s : thermal_info)
    (rd : vadc_read) (hthr : thr < 5) (hsd : s.safe_diff = 5)
    (hthrot : s.throttling = true)
    (hT : rd.physical < 4294967296 + (thr : Int) - 5) :
    ((sub_u32 thr s.safe_diff : Nat) : Int) = 4294967296 + (thr : Int) - 5 ∧
      (check_temp online thr s rd).1.limited_max_freq = UINT_MAX ∧
      (check_temp online thr s rd).1.throttling = false ∧
      ∀ (t : tick_input) (n : Nat) (s0 : thermal_info),
        t.temp_threshold = thr → (thr : Int) < t.rd.physical →
        t.rd.physical < 4294967296 + (thr : Int) - 5 →
        s0.safe_diff = 5 → s0.throttling = false → s0.limited_max_freq = UINT_MAX →
        ((run s0 (List.replicate n t)).throttling = true ↔ n % 2 = 1) ∧
        ((run s0 (List.replicate n t)).limited_max_freq ≠ UINT_MAX ↔ n % 2 = 1) := by
  refine ⟨?_, (check_temp_wrap_release online thr s rd hthr hsd hthrot hT).1,
    (check_temp_wrap_release online thr s rd hthr hsd hthrot hT).2, ?_⟩
  · rw [hsd]
    unfold sub_u32
    omega
  · intro t n s0 ht hlo hhi hsd0 hth0 hfr0
    have halt := (run_wrap_alternates (List.replicate n t)
      (fun u hu => by
        rw [List.eq_of_mem_replicate hu, ht]
        exact ⟨hthr, hlo, hhi⟩) s0 hsd0).1 hth0
    rw [List.length_replicate] at halt
    have hinv := run_throttling_iff s0 (List.replicate n t) (by simp [hth0, hfr0])
    exact ⟨halt, hinv.symm.trans halt⟩

/-- Witness of `release_bound_wraps`: threshold 3, reading 50, clamped at
787200. -/
theorem release_bound_wraps_witness :
    ((3 : Nat) < 5 ∧ (50 : Int) < 4294967296 + ((3 : Nat) : Int) - 5) ∧
      (check_temp [0, 1] 3 ⟨787200, 5, true, false⟩ ⟨0, 50⟩).1.limited_max_freq = UINT_MAX ∧
      (check_temp [0, 1] 3 ⟨787200, 5, true, false⟩ ⟨0, 50⟩).1.throttling = false :=
  ⟨by decide,
    (release_bound_wraps [0, 1] 3 ⟨787200, 5, true, false⟩ ⟨0, 50⟩ (by decide) rfl rfl
      (by decide)).2.1,
    (release_bound_wraps [0, 1] 3 ⟨787200, 5, true, false⟩ ⟨0, 50⟩ (by decide) rfl rfl
      (by decide)).2.2.1⟩

/-! ## Range of the clamp -/

/-- The five values `limited_max_freq` can take. -/
theorem check_temp_freq_range (online : List Nat) (thr : Nat) (s : thermal_info)
    (rd : vadc_read)
    (h : s.limited_max_freq ∈ [UINT_MAX, 787200, 998400, 1190400, 1593600]) :
    (check_temp online thr s rd).1.limited_max_freq ∈
      [UINT_MAX, 787200, 998400, 1190400, 1593600] := by
  by_cases hr : release_check thr s rd.physical
  · rw [check_temp_of_release online thr s rd hr]
    simp [limit_cpu_freqs_freq]
  · by_cases hf : (tier_ladder thr rd.physical).1 = 0
    · rw [check_temp_of_none online thr s rd hr hf]
      exact h
    · rw [check_temp_of_tier online thr s rd hr hf]
      simp only [limit_cpu_freqs_freq]
      rcases tier_ladder_freq_cases thr rd.physical with h1 | h1 | h1 | h1 | h1
      · rw [h1]; simp [FREQ_HELL]
      · rw [h1]; simp [FREQ_VERY_HOT]
      · rw [h1]; simp [FREQ_HOT]
      · rw [h1]; simp [FREQ_WARM]
      · exact absurd h1 hf

/-- Every policy update of a tick publishes the clamp in effect after it. -/
theorem check_temp_update_freq (online : List Nat) (thr : Nat) (s : thermal_info)
    (rd : vadc_read) (cpu f : Nat) (p : Bool)
    (hmem : Event.cpufreq_update_policy cpu f p ∈ (check_temp online thr s rd).2) :
    f = (check_temp online thr s rd).1.limited_max_freq := by
  have key : ∀ g : Nat, ∀ d : Nat,
      Event.cpufreq_update_policy cpu f p ∈ (limit_cpu_freqs online s g).2 ++ [reschedule d] →
      f = g := by
    intro g d hm
    simp only [List.mem_append, List.mem_singleton, reschedule] at hm
    rcases hm with hm | hm
    · unfold limit_cpu_freqs at hm
      split at hm
      · simp at hm
      · simp only [List.mem_map] at hm
        obtain ⟨c, -, hc⟩ := hm
        injection hc with h1 h2 h3
        exact h2.symm
    · cases hm
  by_cases hr : release_check thr s rd.physical
  · rw [check_temp_of_release online thr s rd hr] at hmem ⊢
    simp only [limit_cpu_freqs_freq]
    exact key _ _ hmem
  · by_cases hf : (tier_ladder thr rd.physical).1 = 0
    · rw [check_temp_of_none online thr s rd hr hf] at hmem
      simp [reschedule] at hmem
    · rw [check_temp_of_tier online thr s rd hr hf] at hmem ⊢
      simp only [limit_cpu_freqs_freq]
      exact key _ _ hmem

/-- The range of the clamp, along a run and in its events. -/
theorem run_freq_range (s : thermal_info) (ticks : List tick_input)
    (h : s.limited_max_freq ∈ [UINT_MAX, 787200, 998400, 1190400, 1593600]) :
    (run s ticks).limited_max_freq ∈ [UINT_MAX, 787200, 998400, 1190400, 1593600] ∧
      ∀ (cpu f : Nat) (p : Bool),
        Event.cpufreq_update_policy cpu f p ∈ run_events s ticks →
        f ∈ [UINT_MAX, 787200, 998400, 1190400, 1593600] := by
  induction ticks generalizing s with
  | nil => exact ⟨h, fun cpu f p hm => by simp [run_events] at hm⟩
  | cons t rest ih =>
    have hstep := check_temp_freq_range t.online t.temp_threshold s t.rd h
    have ih2 := ih _ hstep
    refine ⟨ih2.1, ?_⟩
    intro cpu f p hm
    simp only [run_events, List.mem_append] at hm
    rcases hm with hm | hm
    · rw [check_temp_update_freq t.online t.temp_threshold s t.rd cpu f p hm]
      exact hstep
    · exact ih2.2 cpu f p hm

/-- C17: in every state reached from the initial `info` by any sequence of
ticks, `limited_max_freq` is one of `UINT_MAX`, 787200, 998400, 1190400 or
1593600, and so is the maximum published by every `cpufreq_update_policy` of
those ticks; in particular neither is ever 0. -/
theorem clamp_value_range (ticks : List tick_input) :
    (run info ticks).limited_max_freq ∈ [UINT_MAX, 787200, 998400, 1190400, 1593600] ∧
      (run info ticks).limited_max_freq ≠ 0 ∧
      ∀ (cpu f : Nat) (p : Bool),
        Event.cpufreq_update_policy cpu f p ∈ run_events info ticks →
        f ∈ [UINT_MAX, 787200, 998400, 1190400, 1593600] ∧ f ≠ 0 := by
  have hr := run_freq_range info ticks (by decide)
  have ne0 : ∀ f : Nat, f ∈ [UINT_MAX, 787200, 998400, 1190400, 1593600] → f ≠ 0 := by
    intro f hf h0
    rw [h0] at hf
    revert hf
    decide
  exact ⟨hr.1, ne0 _ hr.1, fun cpu f p hm => ⟨hr.2 cpu f p hm, ne0 _ (hr.2 cpu f p hm)⟩⟩

/-- Witness of `clamp_value_range`: threshold 47, readings 68 then 30. -/
theorem clamp_value_range_witness :
    (run info [⟨[0, 1], 47, ⟨0, 68⟩⟩, ⟨[0, 1], 47, ⟨0, 30⟩⟩]).limited_max_freq ∈
        [UINT_MAX, 787200, 998400, 1190400, 1593600] ∧
      (run info [⟨[0, 1], 47, ⟨0, 68⟩⟩, ⟨[0, 1], 47, ⟨0, 30⟩⟩]).limited_max_freq ≠ 0 :=
  ⟨(clamp_value_range [⟨[0, 1], 47, ⟨0, 68⟩⟩, ⟨[0, 1], 47, ⟨0, 30⟩⟩]).1,
    (clamp_value_range [⟨[0, 1], 47, ⟨0, 68⟩⟩, ⟨[0, 1], 47, ⟨0, 30⟩⟩]).2.1⟩

/-! ## The threshold getter -/

/-- C18: for every value of `temp_threshold`, `get_threshold` returns
`temp_threshold mod 65536`; the result equals `temp_threshold` exactly when
`temp_threshold < 65536`, so it is 47 for the default 47; and the globals are
the same after the call. -/
theorem get_threshold_truncates (g : module_globals) :
    (get_threshold g).1 = g.temp_threshold % 65536 ∧
      ((get_threshold g).1 = g.temp_threshold ↔ g.temp_threshold < 65536) ∧
      (g.temp_threshold = 47 → (get_threshold g).1 = 47) ∧
      (get_threshold g).2 = g := by
  refine ⟨rfl, ?_, ?_, rfl⟩
  · unfold get_threshold
    constructor
    · intro h
      have := Nat.mod_lt g.temp_threshold (by decide : 65536 > 0)
      omega
    · intro h
      exact Nat.mod_eq_of_lt h
  · intro h
    unfold get_threshold
    rw [h]

/-- Witness of `get_threshold_truncates`: the default threshold 47 comes back
as 47, and 65583 would come back as 47 too. -/
theorem get_threshold_truncates_witness :
    (get_threshold ⟨47, info⟩).1 = 47 ∧ (get_threshold ⟨65583, info⟩).1 = 65583 % 65536 :=
  ⟨(get_threshold_truncates ⟨47, info⟩).2.2.1 rfl, (get_threshold_truncates ⟨65583, info⟩).1⟩

end MsmThermal
